import Mathlib

/-!
Verification of the syscall-interposition core of the Shadow simulator
(`src/main/host/syscall/protected.h`): the per-thread syscall handler's
blocking protocol, listen-timeout management and descriptor validation.

The header under verification declares `struct _SysCallHandler` and the
protected primitives; the C files implementing the primitives are not part
of the fragment, so their behaviour is modelled from the interface
contract, as marked on each definition.
-/

namespace Shadow

/-- A C `struct timespec`: a relative duration made of signed seconds and
signed nanoseconds (argument type of `_syscallhandler_setListenTimeout`). -/
structure Timespec where
  tv_sec : Int
  tv_nsec : Int
deriving DecidableEq, Repr

/-- Duration of a `Timespec` in nanoseconds of simulated time. -/
def Timespec.toNanos (t : Timespec) : Int :=
  t.tv_sec * 1000000000 + t.tv_nsec

/-- Runtime type tag of a descriptor handle (socket, file, timer, epoll). -/
inductive DescriptorType
  | socket
  | file
  | timerFd
  | epoll
deriving DecidableEq, Repr

/-- A descriptor handle carrying its runtime type tag. -/
structure Descriptor where
  dtype : DescriptorType
deriving DecidableEq, Repr

/-- Modelled from the spec: the state of the handler's exclusively owned
one-shot timeout descriptor (`Timer*` field of `struct _SysCallHandler`;
the `Timer` implementation in `main/host/descriptor/timer.h` is not part
of the fragment). `deadline` is the absolute simulated time at which the
current arming fires, when armed; `gen` counts armings, so that a wake
event scheduled by a cancelled or replaced arming can be recognised as
stale; `expired` records that the current arming has fired. -/
structure Timer where
  deadline : Option Int
  gen : Nat
  expired : Bool
deriving DecidableEq, Repr

/-- The per-thread syscall handler, from `struct _SysCallHandler` in
`src/main/host/syscall/protected.h`. The `host`, `process` and `thread`
back-references are opaque handles to external collaborators.
`blockedSyscallNR` is the C `long` field: the syscall number currently
blocked, or a negative sentinel when no syscall is blocked. -/
structure SysCallHandler where
  host : Nat
  process : Nat
  thread : Nat
  timer : Timer
  blockedSyscallNR : Int
  referenceCount : Nat
deriving DecidableEq, Repr

/-- A wake event scheduled with the simulation's event loop: fires at
`deadline` and carries the generation of the arming that scheduled it. -/
structure WakeEvent where
  deadline : Int
  gen : Nat
deriving DecidableEq, Repr

/-- Modelled from the spec: construction of a fresh handler (the
constructor in `syscall_handler.c` is not part of the fragment). The
timer is created once, unarmed; `blockedSyscallNR` is set to the negative
sentinel: no syscall is blocked. -/
def syscallhandler_new (host process thread : Nat) : SysCallHandler :=
  { host := host
    process := process
    thread := thread
    timer := { deadline := none, gen := 0, expired := false }
    blockedSyscallNR := -1
    referenceCount := 1 }

/-- Modelled from the spec: `_syscallhandler_setListenTimeout` (declared in
the header; the implementing C file is not part of the fragment). With a
present `timeout`, arms the owned timer to fire after the relative
duration, measured from the current simulated time `now`, and schedules
exactly one future wake event; arming cancels and replaces any previous
arming (the generation counter advances, so earlier events become stale).
With a null (`none`) timeout, disarms the timer and schedules nothing. -/
def _syscallhandler_setListenTimeout (sys : SysCallHandler) (now : Int)
    (timeout : Option Timespec) : SysCallHandler × Option WakeEvent :=
  match timeout with
  | some t =>
      ({ sys with timer := { deadline := some (now + t.toNanos),
                             gen := sys.timer.gen + 1,
                             expired := false } },
       some { deadline := now + t.toNanos, gen := sys.timer.gen + 1 })
  | none =>
      ({ sys with timer := { deadline := none,
                             gen := sys.timer.gen + 1,
                             expired := sys.timer.expired } },
       none)

/-- Conversion of a millisecond count to a `struct timespec`, with C
truncating division semantics for the `gint` argument. -/
def timespecOfMillis (timeout_ms : Int) : Timespec :=
  { tv_sec := timeout_ms.tdiv 1000, tv_nsec := timeout_ms.tmod 1000 * 1000000 }

/-- Modelled from the spec: `_syscallhandler_setListenTimeoutMillis`
(declared in the header; the implementing C file is not part of the
fragment): convenience variant that converts the integer millisecond
duration to a `timespec` and delegates to the duration-based primitive. -/
def _syscallhandler_setListenTimeoutMillis (sys : SysCallHandler) (now : Int)
    (timeout_ms : Int) : SysCallHandler × Option WakeEvent :=
  _syscallhandler_setListenTimeout sys now (some (timespecOfMillis timeout_ms))

/-- Modelled from the spec: `_syscallhandler_isListenTimeoutPending`: true
iff the owned timer is currently armed and has not yet fired. -/
def _syscallhandler_isListenTimeoutPending (sys : SysCallHandler) : Bool :=
  sys.timer.deadline.isSome

/-- Modelled from the spec: `_syscallhandler_didListenTimeoutExpire`: true
iff the owned timer has fired since it was last armed and has not been
re-armed since. -/
def _syscallhandler_didListenTimeoutExpire (sys : SysCallHandler) : Bool :=
  sys.timer.expired

/-- Modelled from the spec: `_syscallhandler_wasBlocked`: true iff
`blockedSyscallNR` holds a non-negative value. -/
def _syscallhandler_wasBlocked (sys : SysCallHandler) : Bool :=
  decide (0 ≤ sys.blockedSyscallNR)

/-- Modelled from the spec: delivery by the event loop of a scheduled wake
event at simulated time `now`. The event fires only if its deadline has
been reached and it belongs to the timer's current arming; events of a
cancelled or replaced arming are stale and are ignored. Firing marks the
one-shot timer expired and no longer armed. -/
def deliverWake (sys : SysCallHandler) (ev : WakeEvent) (now : Int) :
    SysCallHandler :=
  if ev.gen = sys.timer.gen ∧ ev.deadline ≤ now then
    { sys with timer := { deadline := none,
                          gen := sys.timer.gen,
                          expired := true } }
  else sys

/-- Modelled from the spec: a syscall implementation that cannot complete
immediately records its own syscall number `nr` as the blocked one.
Setting `blockedSyscallNR` to a non-negative value requires the previous
value to be the negative sentinel; attempting to enter BLOCKED while
already BLOCKED is a fatal protocol violation, modelled as `none`. -/
def blockSyscall (sys : SysCallHandler) (nr : Nat) : Option SysCallHandler :=
  if sys.blockedSyscallNR < 0 then
    some { sys with blockedSyscallNR := (nr : Int) }
  else
    none

/-- Modelled from the spec: the dispatcher resumes the handler for syscall
number `nr` and the implementation completes the call, transitioning back
to IDLE (`blockedSyscallNR` reset to the negative sentinel). Resuming for
a number different from the recorded `blockedSyscallNR` is a fatal
protocol violation, modelled as `none`. -/
def resumeSyscall (sys : SysCallHandler) (nr : Nat) : Option SysCallHandler :=
  if sys.blockedSyscallNR = (nr : Int) then
    some { sys with blockedSyscallNR := -1 }
  else
    none

/-- Outcome of descriptor validation: success, or a typed failure. -/
inductive ValidateResult
  | success
  | typeMismatch
deriving DecidableEq, Repr

/-- Modelled from the spec: `_syscallhandler_validateDescriptor` (declared
in the header; the implementing C file is not part of the fragment), in a
state-passing embedding: the call receives the descriptor and the current
handler state and returns the result together with the post-call
descriptor and handler states. It only compares the descriptor's runtime
type tag with the expected tag and writes nothing. -/
def _syscallhandler_validateDescriptor (descriptor : Descriptor)
    (expectedType : DescriptorType) (sys : SysCallHandler) :
    ValidateResult × Descriptor × SysCallHandler :=
  (if descriptor.dtype = expectedType then ValidateResult.success
   else ValidateResult.typeMismatch,
   descriptor, sys)

/-- A C function declaration from `protected.h`: its name and whether its
`SysCallHandler*` parameter is `const`-qualified (`none` when the function
takes no handler parameter at all). -/
structure ProtectedDecl where
  name : String
  constHandler : Option Bool
deriving DecidableEq, Repr

/-- The declarations of `src/main/host/syscall/protected.h`, lines 56-64,
with the `const`-qualification of each `SysCallHandler*` parameter. -/
def protectedHeaderDecls : List ProtectedDecl :=
  [ { name := "_syscallhandler_setListenTimeout", constHandler := some false }
  , { name := "_syscallhandler_setListenTimeoutMillis", constHandler := some false }
  , { name := "_syscallhandler_isListenTimeoutPending", constHandler := some false }
  , { name := "_syscallhandler_didListenTimeoutExpire", constHandler := some true }
  , { name := "_syscallhandler_wasBlocked", constHandler := some true }
  , { name := "_syscallhandler_validateDescriptor", constHandler := none } ]

/-- A concrete idle handler, used to instantiate theorems. -/
def handler0 : SysCallHandler :=
  syscallhandler_new 0 0 0

/-- A concrete handler blocked on syscall number 42. -/
def handlerBlocked42 : SysCallHandler :=
  { handler0 with blockedSyscallNR := 42 }

/-- C1: at every instant `blockedSyscallNR` is either negative (state IDLE)
or exactly one non-negative syscall number (state BLOCKED); `blockSyscall`
sets it to a non-negative value only when the previous value is negative:
on a handler already in BLOCKED it hits the fatal protocol-violation path,
and on success the resulting handler is in BLOCKED exactly for `nr` and
cannot enter BLOCKED again without first passing through IDLE. -/
theorem blockedSyscallNR_single_block (sys : SysCallHandler) (nr : Nat) :
    (sys.blockedSyscallNR < 0 ∨ 0 ≤ sys.blockedSyscallNR) ∧
    (0 ≤ sys.blockedSyscallNR → blockSyscall sys nr = none) ∧
    (∀ sys', blockSyscall sys nr = some sys' →
      sys.blockedSyscallNR < 0 ∧ sys'.blockedSyscallNR = (nr : Int) ∧
      0 ≤ sys'.blockedSyscallNR ∧ ∀ m, blockSyscall sys' m = none) := by
  refine ⟨lt_or_le _ _, fun h => ?_, fun sys' h => ?_⟩
  · simp [blockSyscall, not_lt.mpr h]
  · unfold blockSyscall at h
    split at h
    · next hb =>
      injection h with h
      subst h
      refine ⟨hb, rfl, by show (0 : Int) ≤ (nr : Int); omega, fun m => ?_⟩
      unfold blockSyscall
      split
      · next hc =>
        have hc' : (nr : Int) < 0 := hc
        exact absurd hc' (by omega)
      · rfl
    · exact absurd h (by simp)

/-- C1 witness: blocking on a handler already blocked on 42 is refused. -/
theorem blockedSyscallNR_single_block_witness :
    blockSyscall handlerBlocked42 7 = none :=
  (blockedSyscallNR_single_block handlerBlocked42 7).2.1 (by decide)

/-- C2: resuming a handler blocked on syscall number `n` for any number
`m ≠ n` takes the fatal protocol-violation path (`none`), never silently
proceeding; resuming for `n` itself is allowed and returns the handler to
IDLE (negative `blockedSyscallNR`). -/
theorem resume_mismatch_protocol_violation (sys : SysCallHandler) (n : Nat)
    (hblocked : sys.blockedSyscallNR = (n : Int)) :
    (∀ m : Nat, m ≠ n → resumeSyscall sys m = none) ∧
    (∃ sys', resumeSyscall sys n = some sys' ∧ sys'.blockedSyscallNR < 0) := by
  constructor
  · intro m hm
    unfold resumeSyscall
    rw [if_neg]
    rw [hblocked]
    intro hc
    exact hm (by exact_mod_cast hc.symm)
  · refine ⟨{ sys with blockedSyscallNR := -1 }, ?_, by simp⟩
    unfold resumeSyscall
    rw [if_pos hblocked]

/-- C2 witness: the handler blocked on 42 aborts when resumed for 7 and
resumes cleanly for 42. -/
theorem resume_mismatch_protocol_violation_witness :
    resumeSyscall handlerBlocked42 7 = none ∧
    (∃ sys', resumeSyscall handlerBlocked42 42 = some sys' ∧
      sys'.blockedSyscallNR < 0) :=
  ⟨(resume_mismatch_protocol_violation handlerBlocked42 42 (by decide)).1 7
      (by decide),
   (resume_mismatch_protocol_violation handlerBlocked42 42 (by decide)).2⟩

/-- C3: `_syscallhandler_wasBlocked` returns true iff `blockedSyscallNR`
is non-negative; it is false immediately after construction, and false
immediately after any completed (non-blocking) resumption. -/
theorem wasBlocked_iff_nonneg (sys sys' : SysCallHandler)
    (host process thread m : Nat) :
    (_syscallhandler_wasBlocked sys = true ↔ 0 ≤ sys.blockedSyscallNR) ∧
    _syscallhandler_wasBlocked (syscallhandler_new host process thread) = false ∧
    (resumeSyscall sys m = some sys' → _syscallhandler_wasBlocked sys' = false) := by
  refine ⟨by simp [_syscallhandler_wasBlocked], rfl, fun h => ?_⟩
  unfold resumeSyscall at h
  split at h
  · injection h with h
    subst h
    simp [_syscallhandler_wasBlocked]
  · exact absurd h (by simp)

/-- C3 witness: a fresh handler is not blocked, and after the blocked
handler completes its resumption for 42 it is not blocked either. -/
theorem wasBlocked_iff_nonneg_witness :
    _syscallhandler_wasBlocked (syscallhandler_new 0 0 0) = false ∧
    _syscallhandler_wasBlocked { handlerBlocked42 with blockedSyscallNR := -1 }
      = false :=
  ⟨(wasBlocked_iff_nonneg handler0 handler0 0 0 0 0).2.1,
   (wasBlocked_iff_nonneg handlerBlocked42
      { handlerBlocked42 with blockedSyscallNR := -1 } 0 0 0 42).2.2 (by decide)⟩

/-- A one-second timespec. -/
def oneSecond : Timespec :=
  { tv_sec := 1, tv_nsec := 0 }

/-- A two-second timespec. -/
def twoSeconds : Timespec :=
  { tv_sec := 2, tv_nsec := 0 }

/-- The idle handler after arming a one-second listen timeout at time 0. -/
def sysArmed : SysCallHandler :=
  { handler0 with
      timer := { deadline := some 1000000000, gen := 1, expired := false } }

/-- The wake event scheduled by arming a one-second timeout at time 0. -/
def evArmed : WakeEvent :=
  { deadline := 1000000000, gen := 1 }

/-- The handler `sysArmed` after re-arming with two seconds at time 5×10⁸. -/
def sysArmed2 : SysCallHandler :=
  { handler0 with
      timer := { deadline := some 2500000000, gen := 2, expired := false } }

/-- The wake event scheduled by the re-arming that produced `sysArmed2`. -/
def evArmed2 : WakeEvent :=
  { deadline := 2500000000, gen := 2 }

/-- The handler `sysArmed` after disarming (null timeout). -/
def sysDisarmed : SysCallHandler :=
  { handler0 with
      timer := { deadline := none, gen := 2, expired := false } }

/-- The fresh handler `handler0` after disarming its already-unarmed timer. -/
def sysDisarmed0 : SysCallHandler :=
  { handler0 with
      timer := { deadline := none, gen := 1, expired := false } }

/-- C4: immediately after arming the listen timeout with a present duration
`t`, the timeout is pending and not expired; the scheduled wake event fires
at `now + t`; delivering it at any earlier instant changes nothing (pending
stays true, not expired), and delivering it once the duration has elapsed
makes the timeout expired and no longer pending. -/
theorem setListenTimeout_pending_until_expiry (sys sys1 : SysCallHandler)
    (ev : WakeEvent) (now : Int) (t : Timespec)
    (h : _syscallhandler_setListenTimeout sys now (some t) = (sys1, some ev)) :
    _syscallhandler_isListenTimeoutPending sys1 = true ∧
    _syscallhandler_didListenTimeoutExpire sys1 = false ∧
    ev.deadline = now + t.toNanos ∧
    (∀ now', now' < now + t.toNanos → deliverWake sys1 ev now' = sys1) ∧
    (∀ now', now + t.toNanos ≤ now' →
      _syscallhandler_isListenTimeoutPending (deliverWake sys1 ev now') = false ∧
      _syscallhandler_didListenTimeoutExpire (deliverWake sys1 ev now') = true) := by
  unfold _syscallhandler_setListenTimeout at h
  injection h with h1 h2
  injection h2 with h2
  subst h1
  subst h2
  refine ⟨rfl, rfl, rfl, fun now' hlt => ?_, fun now' hge => ?_⟩
  · unfold deliverWake
    split
    · next hc =>
      have hle : now + t.toNanos ≤ now' := hc.2
      exact absurd hle (by omega)
    · rfl
  · unfold deliverWake
    rw [if_pos ⟨rfl, hge⟩]
    exact ⟨rfl, rfl⟩

/-- C4 witness: arming a one-second timeout on a fresh handler at time 0
leaves the timeout pending and unexpired. -/
theorem setListenTimeout_pending_until_expiry_witness :
    _syscallhandler_isListenTimeoutPending sysArmed = true ∧
    _syscallhandler_didListenTimeoutExpire sysArmed = false :=
  ⟨(setListenTimeout_pending_until_expiry handler0 sysArmed evArmed 0 oneSecond
      (by decide)).1,
   (setListenTimeout_pending_until_expiry handler0 sysArmed evArmed 0 oneSecond
      (by decide)).2.1⟩

/-- C5: each arming with a present duration schedules exactly one wake
event (the single `some` event returned), and re-arming before expiry
cancels and replaces the previous arming: the generation counter advances,
so the first arming's event is stale for the re-armed handler and its
delivery at any instant changes nothing — no spurious late firing. -/
theorem rearm_cancels_previous (sys sys1 sys2 : SysCallHandler)
    (ev1 ev2 : WakeEvent) (now1 now2 : Int) (t1 t2 : Timespec)
    (h1 : _syscallhandler_setListenTimeout sys now1 (some t1) = (sys1, some ev1))
    (h2 : _syscallhandler_setListenTimeout sys1 now2 (some t2) = (sys2, some ev2)) :
    ev1.gen ≠ ev2.gen ∧
    sys2.timer.gen = ev2.gen ∧
    sys2.timer.deadline = some (now2 + t2.toNanos) ∧
    (∀ now', deliverWake sys2 ev1 now' = sys2) := by
  unfold _syscallhandler_setListenTimeout at h1 h2
  injection h1 with ha hb
  injection hb with hb
  subst ha
  subst hb
  injection h2 with hc hd
  injection hd with hd
  subst hc
  subst hd
  refine ⟨?_, rfl, rfl, fun now' => ?_⟩
  · show sys.timer.gen + 1 ≠ sys.timer.gen + 1 + 1
    omega
  · unfold deliverWake
    split
    · next hcond =>
      have hg : sys.timer.gen + 1 = sys.timer.gen + 1 + 1 := hcond.1
      exact absurd hg (by omega)
    · rfl

/-- C5 witness: after re-arming, the first arming's event is ignored. -/
theorem rearm_cancels_previous_witness :
    evArmed.gen ≠ evArmed2.gen ∧
    deliverWake sysArmed2 evArmed 3000000000 = sysArmed2 :=
  ⟨(rearm_cancels_previous handler0 sysArmed sysArmed2 evArmed evArmed2
      0 500000000 oneSecond twoSeconds (by decide) (by decide)).1,
   (rearm_cancels_previous handler0 sysArmed sysArmed2 evArmed evArmed2
      0 500000000 oneSecond twoSeconds (by decide) (by decide)).2.2.2
      3000000000⟩

/-- C6: a null (absent) timeout disarms the owned timer: afterwards the
timeout is not pending, no deadline remains armed, and every wake event
scheduled by any earlier arming (generation at most the old one) is stale
and never fires against the handler. -/
theorem disarm_unschedules (sys sys1 : SysCallHandler) (now : Int)
    (h : _syscallhandler_setListenTimeout sys now none = (sys1, none)) :
    _syscallhandler_isListenTimeoutPending sys1 = false ∧
    sys1.timer.deadline = none ∧
    (∀ ev : WakeEvent, ev.gen ≤ sys.timer.gen → ∀ now',
      deliverWake sys1 ev now' = sys1) := by
  unfold _syscallhandler_setListenTimeout at h
  injection h with h1 h2
  subst h1
  refine ⟨rfl, rfl, fun ev hev now' => ?_⟩
  unfold deliverWake
  split
  · next hc =>
    have hg : ev.gen = sys.timer.gen + 1 := hc.1
    exact absurd hg (by omega)
  · rfl

/-- C6 witness: disarming the armed handler leaves nothing pending, and
the arming's own event no longer fires. -/
theorem disarm_unschedules_witness :
    _syscallhandler_isListenTimeoutPending sysDisarmed = false ∧
    deliverWake sysDisarmed evArmed 2000000000 = sysDisarmed :=
  ⟨(disarm_unschedules sysArmed sysDisarmed 600000000 (by decide)).1,
   (disarm_unschedules sysArmed sysDisarmed 600000000 (by decide)).2.2 evArmed
      (by decide) 2000000000⟩

/-- C7: disarming a handler whose timer is already disarmed is idempotent:
the timeout is still not pending and `_syscallhandler_didListenTimeoutExpire`
is unchanged. -/
theorem disarm_idempotent (sys sys1 : SysCallHandler) (now : Int)
    (_halready : _syscallhandler_isListenTimeoutPending sys = false)
    (h : _syscallhandler_setListenTimeout sys now none = (sys1, none)) :
    _syscallhandler_isListenTimeoutPending sys1 = false ∧
    _syscallhandler_didListenTimeoutExpire sys1 =
      _syscallhandler_didListenTimeoutExpire sys := by
  unfold _syscallhandler_setListenTimeout at h
  injection h with h1 h2
  subst h1
  exact ⟨rfl, rfl⟩

/-- C7 witness: disarming the fresh (already unarmed) handler keeps the
timeout non-pending and leaves the expired flag unchanged. -/
theorem disarm_idempotent_witness :
    _syscallhandler_isListenTimeoutPending sysDisarmed0 = false ∧
    _syscallhandler_didListenTimeoutExpire sysDisarmed0 =
      _syscallhandler_didListenTimeoutExpire handler0 :=
  disarm_idempotent handler0 sysDisarmed0 5 (by decide) (by decide)

/-- C8: the millisecond variant is a pure convenience wrapper: for every
handler, instant and millisecond count, `_syscallhandler_setListenTimeoutMillis`
produces exactly the handler state and scheduled event obtained by
converting the milliseconds to a `timespec` and calling the duration-based
primitive. -/
theorem setListenTimeoutMillis_delegates (sys : SysCallHandler)
    (now timeout_ms : Int) :
    _syscallhandler_setListenTimeoutMillis sys now timeout_ms =
      _syscallhandler_setListenTimeout sys now
        (some (timespecOfMillis timeout_ms)) :=
  rfl

/-- C9: `_syscallhandler_validateDescriptor` succeeds exactly when the
descriptor's runtime type tag matches the expected type, returns a typed
failure exactly when it does not (in particular a file descriptor checked
against the socket type yields a type mismatch), and mutates no state: the
post-call descriptor and handler states equal the inputs. -/
theorem validateDescriptor_checks_type (descriptor : Descriptor)
    (expectedType : DescriptorType) (sys : SysCallHandler) :
    ((_syscallhandler_validateDescriptor descriptor expectedType sys).1 =
        ValidateResult.success ↔ descriptor.dtype = expectedType) ∧
    ((_syscallhandler_validateDescriptor descriptor expectedType sys).1 =
        ValidateResult.typeMismatch ↔ descriptor.dtype ≠ expectedType) ∧
    (_syscallhandler_validateDescriptor descriptor expectedType sys).2.1 =
      descriptor ∧
    (_syscallhandler_validateDescriptor descriptor expectedType sys).2.2 = sys ∧
    (_syscallhandler_validateDescriptor { dtype := DescriptorType.file }
        DescriptorType.socket sys).1 = ValidateResult.typeMismatch := by
  unfold _syscallhandler_validateDescriptor
  by_cases hd : descriptor.dtype = expectedType
  · rw [if_pos hd]
    exact ⟨by simp [hd], by simp [hd], rfl, rfl, rfl⟩
  · rw [if_neg hd]
    exact ⟨by simp [hd], by simp [hd], rfl, rfl, rfl⟩

/-- C10: in the header's declarations, `_syscallhandler_wasBlocked` and
`_syscallhandler_didListenTimeoutExpire` take the handler by `const`
pointer — the interface promises they modify no handler field — while
`_syscallhandler_isListenTimeoutPending` is declared on a mutable
(non-`const`) handler, so the interface does not promise it leaves the
handler unmodified. -/
theorem const_qualifiers_of_queries :
    protectedHeaderDecls.find?
        (fun d => d.name == "_syscallhandler_wasBlocked") =
      some { name := "_syscallhandler_wasBlocked", constHandler := some true } ∧
    protectedHeaderDecls.find?
        (fun d => d.name == "_syscallhandler_didListenTimeoutExpire") =
      some { name := "_syscallhandler_didListenTimeoutExpire",
             constHandler := some true } ∧
    protectedHeaderDecls.find?
        (fun d => d.name == "_syscallhandler_isListenTimeoutPending") =
      some { name := "_syscallhandler_isListenTimeoutPending",
             constHandler := some false } := by
  refine ⟨rfl, rfl, rfl⟩

end Shadow
